import Mathlib

/-!
# Verification of the pixel-prompt backend core

Shallow embedding of the session/job state machine, rate limiter, bounded
context window, fan-out executor and provider adapter of the backend
(`src/backend/src/jobs/manager.py`, `src/backend/src/jobs/executor.py`,
`src/backend/src/utils/rate_limit.py`, `src/backend/src/models/context.py`,
`src/backend/src/models/handlers.py`), together with theorems settling the
spec's claims about them.

Conventions of the embedding:
- Python status strings are kept as Lean `String`s.
- Python dicts (insertion ordered) are association lists.
- S3 is a single-key store per record; a `get_object` observed by an
  operation is supplied by an oracle (`AttemptEnv`), so concurrent
  interference between the read and the conditional write is expressible.
- `put_object` calls are recorded in an event trace.
- Python exceptions become an `Except PyErr` result.
- ISO-8601 timestamps that are only stored (never compared) are `String`s;
  rate-limit timestamps (which are compared against time windows) are `Int`
  epoch seconds.
- Python floats that are only stored (durations) are `Rat`.
-/

namespace PixelPrompt

/-- Python exception kinds raised by the embedded code. -/
inductive PyErr where
  | valueError (msg : String)
  | keyError (msg : String)
  | typeError (msg : String)
deriving Repr, DecidableEq

/-- Association-list lookup: Python `d.get(k)` / `k in d` on an
insertion-ordered dict. -/
def dictGet {α : Type} (d : List (String × α)) (k : String) : Option α :=
  (d.find? (fun p => p.fst == k)).map Prod.snd

/-- Update the first element satisfying `p` (Python mutates the single dict
entry / the first list element found by a scan). -/
def updateFirst {α : Type} (p : α → Bool) (f : α → α) : List α → List α
  | [] => []
  | x :: xs => if p x then f x :: xs else x :: updateFirst p f xs

/-! ## Session data model (`jobs/manager.py`) -/

/-- `MAX_ITERATIONS` from `config.py`. -/
def MAX_ITERATIONS : Nat := 7

/-- `MAX_RETRIES` from `jobs/manager.py`. -/
def MAX_RETRIES : Nat := 3

/-- One iteration record inside a model column. -/
structure Iteration where
  index : Nat
  status : String
  prompt : String
  startedAt : Option String := none
  isOutpaint : Bool := false
  outpaintPreset : Option String := none
  imageKey : Option String := none
  completedAt : Option String := none
  error : Option String := none
  duration : Option Rat := none
deriving Repr, DecidableEq

/-- Per-model column state (`session['models'][name]`). -/
structure ModelData where
  enabled : Bool
  status : String
  iterationCount : Nat
  iterations : List Iteration
deriving Repr, DecidableEq

/-- The session status record (`sessions/{id}/status.json`). -/
structure Session where
  sessionId : String
  status : String
  version : Nat
  prompt : String
  createdAt : String
  updatedAt : String
  models : List (String × ModelData)
deriving Repr, DecidableEq

/-- `SessionManager._compute_model_status`. -/
def compute_model_status (model_data : ModelData) : String :=
  if !model_data.enabled then "disabled"
  else
    let iterations := model_data.iterations
    if iterations.isEmpty then "pending"
    else if iterations.any (fun it => it.status == "in_progress") then "in_progress"
    else
      let has_error := iterations.any (fun it => it.status == "error")
      let has_completed := iterations.any (fun it => it.status == "completed")
      if has_error && !has_completed then "error"
      else if has_error then "partial"
      else "completed"

/-- `SessionManager._compute_session_status`. -/
def compute_session_status (session : Session) : String :=
  let models := session.models.map Prod.snd
  let enabled_models := models.filter (fun m => m.enabled)
  if enabled_models.isEmpty then "failed"
  else
    let statuses := enabled_models.map (fun m => m.status)
    if statuses.all (fun s => s == "pending") then "pending"
    else if statuses.any (fun s => s == "in_progress") then "in_progress"
    else
      let error_count := statuses.countP (fun s => s == "error" || s == "failed")
      let completed_count := statuses.countP (fun s => s == "completed" || s == "partial")
      if error_count == enabled_models.length then "failed"
      else if error_count > 0 then "partial"
      else
        let _ := completed_count
        "completed"

/-- The list of statuses of the enabled model columns of a session (the
multiset `_compute_session_status` branches on). -/
def enabledStatuses (session : Session) : List String :=
  ((session.models.map Prod.snd).filter (fun m => m.enabled)).map (fun m => m.status)

/-- `SessionManager.create_session`; the generated UUID and the current
timestamp are parameters. -/
def create_session (session_id now prompt : String) (enabled_models : List String) :
    Session :=
  let mk := fun (model_name : String) =>
    (model_name,
      { enabled := enabled_models.contains model_name
        status := if enabled_models.contains model_name then "pending" else "disabled"
        iterationCount := 0
        iterations := [] : ModelData })
  { sessionId := session_id
    status := "pending"
    version := 1
    prompt := prompt
    createdAt := now
    updatedAt := now
    models := [mk "flux", mk "recraft", mk "gemini", mk "openai"] }

/-! ## Session mutations with optimistic locking (`jobs/manager.py`)

Each public mutation is a `for attempt in range(MAX_RETRIES)` loop.  An
attempt performs two `get_object` reads: one at the top of the loop
(`self.get_session(...)`) and one inside `_save_status_with_version` (which
re-reads to check the version).  Both observed values are supplied per
attempt by an `AttemptEnv` oracle, so concurrent writers that change the
stored record between reads are expressible.  `put_object` calls are
recorded as a `StoreEvent` trace. -/

/-- The S3 reads one loop attempt observes: `read` is the `get_session` at
the top of the loop, `casRead` the `get_session` inside
`_save_status_with_version`. -/
structure AttemptEnv where
  read : Option Session
  casRead : Option Session
deriving Repr, DecidableEq

/-- A store write (or attempted write): `casAttempt rec expected ok` is one
call of `_save_status_with_version` (which writes `rec` only when `ok`);
`forcePut rec` is the unconditional `_save_status` fallback. -/
inductive StoreEvent where
  | casAttempt (rec : Session) (expected : Nat) (ok : Bool)
  | forcePut (rec : Session)
deriving Repr, DecidableEq

/-- `SessionManager._save_status_with_version`, as a predicate on the
re-read store content: the write goes through unless a record exists whose
version differs from the expected one. -/
def save_status_with_version (casRead : Option Session) (expected_version : Nat) :
    Bool :=
  match casRead with
  | some current => current.version == expected_version
  | none => true

/-- The read-modify step of `SessionManager.add_iteration` (one loop body
up to the conditional save): validates the session, appends a new
`in_progress` iteration and recomputes statuses and version. -/
def add_iteration_compute (session : Session) (model prompt : String)
    (is_outpaint : Bool) (outpaint_preset : Option String) (now : String) :
    Except PyErr (Session × Nat) :=
  match dictGet session.models model with
  | none => .error (.valueError ("Unknown model: " ++ model))
  | some model_data =>
    if !model_data.enabled then
      .error (.valueError ("Model " ++ model ++ " is disabled"))
    else if MAX_ITERATIONS ≤ model_data.iterationCount then
      .error (.valueError ("Iteration limit reached for model " ++ model))
    else
      let original_version := session.version
      let iteration_index := model_data.iterationCount
      let iteration : Iteration :=
        { index := iteration_index
          status := "in_progress"
          prompt := prompt
          startedAt := some now
          isOutpaint := is_outpaint
          outpaintPreset := outpaint_preset }
      let model_data1 : ModelData :=
        { model_data with
          iterations := model_data.iterations ++ [iteration]
          iterationCount := iteration_index + 1
          status := "in_progress" }
      let session1 :=
        { session with
          models := updateFirst (fun p => p.fst == model)
            (fun p => (p.fst, model_data1)) session.models }
      let session2 :=
        { session1 with
          status := compute_session_status session1
          updatedAt := now
          version := original_version + 1 }
      .ok (session2, iteration_index)

/-- `SessionManager.add_iteration`: the retry loop over the per-attempt
oracle; on conflict in the last attempt the record computed there is
force-written (`_save_status`) and the iteration index returned. -/
def add_iteration (model prompt : String) (is_outpaint : Bool)
    (outpaint_preset : Option String) (now : String) :
    List AttemptEnv → Except PyErr Nat × List StoreEvent
  | [] => (.error (.valueError "loop did not run"), [])
  | e :: rest =>
    match e.read with
    | none => (.error (.valueError "Session not found"), [])
    | some session =>
      match add_iteration_compute session model prompt is_outpaint outpaint_preset now with
      | .error err => (.error err, [])
      | .ok (session2, iteration_index) =>
        if save_status_with_version e.casRead session.version then
          (.ok iteration_index, [.casAttempt session2 session.version true])
        else if rest.isEmpty then
          (.ok iteration_index,
            [.casAttempt session2 session.version false, .forcePut session2])
        else
          let r := add_iteration model prompt is_outpaint outpaint_preset now rest
          (r.fst, .casAttempt session2 session.version false :: r.snd)

/-- The read-modify step of `SessionManager.complete_iteration`: marks the
found iteration completed with its image key and duration, and recomputes
the model and session statuses and the version. -/
def complete_iteration_compute (session : Session) (model : String) (index : Nat)
    (image_key : String) (duration : Option Rat) (now : String) :
    Except PyErr Session :=
  let original_version := session.version
  match dictGet session.models model with
  | none => .error (.keyError model)
  | some model_data =>
    match model_data.iterations.find? (fun it => it.index == index) with
    | none =>
      .error (.valueError ("Iteration not found for model " ++ model))
    | some it0 =>
      let it1 : Iteration :=
        { it0 with
          status := "completed"
          imageKey := some image_key
          completedAt := some now
          duration := match duration with
            | some d => some d
            | none => it0.duration }
      let model_data1 : ModelData :=
        { model_data with
          iterations := updateFirst (fun it => it.index == index)
            (fun _ => it1) model_data.iterations }
      let model_data2 := { model_data1 with status := compute_model_status model_data1 }
      let session1 :=
        { session with
          models := updateFirst (fun p => p.fst == model)
            (fun p => (p.fst, model_data2)) session.models }
      let session2 :=
        { session1 with
          status := compute_session_status session1
          updatedAt := now
          version := original_version + 1 }
      .ok session2

/-- `SessionManager.complete_iteration`: the retry loop. -/
def complete_iteration (model : String) (index : Nat) (image_key : String)
    (duration : Option Rat) (now : String) :
    List AttemptEnv → Except PyErr Unit × List StoreEvent
  | [] => (.error (.valueError "loop did not run"), [])
  | e :: rest =>
    match e.read with
    | none => (.error (.valueError "Session not found"), [])
    | some session =>
      match complete_iteration_compute session model index image_key duration now with
      | .error err => (.error err, [])
      | .ok session2 =>
        if save_status_with_version e.casRead session.version then
          (.ok (), [.casAttempt session2 session.version true])
        else if rest.isEmpty then
          (.ok (), [.casAttempt session2 session.version false, .forcePut session2])
        else
          let r := complete_iteration model index image_key duration now rest
          (r.fst, .casAttempt session2 session.version false :: r.snd)

/-- The read-modify step of `SessionManager.fail_iteration`: marks the
found iteration as an error and recomputes statuses and the version. -/
def fail_iteration_compute (session : Session) (model : String) (index : Nat)
    (error_msg : String) (now : String) : Except PyErr Session :=
  let original_version := session.version
  match dictGet session.models model with
  | none => .error (.keyError model)
  | some model_data =>
    match model_data.iterations.find? (fun it => it.index == index) with
    | none =>
      .error (.valueError ("Iteration not found for model " ++ model))
    | some it0 =>
      let it1 : Iteration :=
        { it0 with
          status := "error"
          error := some error_msg
          completedAt := some now }
      let model_data1 : ModelData :=
        { model_data with
          iterations := updateFirst (fun it => it.index == index)
            (fun _ => it1) model_data.iterations }
      let model_data2 := { model_data1 with status := compute_model_status model_data1 }
      let session1 :=
        { session with
          models := updateFirst (fun p => p.fst == model)
            (fun p => (p.fst, model_data2)) session.models }
      let session2 :=
        { session1 with
          status := compute_session_status session1
          updatedAt := now
          version := original_version + 1 }
      .ok session2

/-- `SessionManager.fail_iteration`: the retry loop. -/
def fail_iteration (model : String) (index : Nat) (error_msg : String)
    (now : String) :
    List AttemptEnv → Except PyErr Unit × List StoreEvent
  | [] => (.error (.valueError "loop did not run"), [])
  | e :: rest =>
    match e.read with
    | none => (.error (.valueError "Session not found"), [])
    | some session =>
      match fail_iteration_compute session model index error_msg now with
      | .error err => (.error err, [])
      | .ok session2 =>
        if save_status_with_version e.casRead session.version then
          (.ok (), [.casAttempt session2 session.version true])
        else if rest.isEmpty then
          (.ok (), [.casAttempt session2 session.version false, .forcePut session2])
        else
          let r := fail_iteration model index error_msg now rest
          (r.fst, .casAttempt session2 session.version false :: r.snd)

/-! ## Rate limiter (`utils/rate_limit.py`)

`check_rate_limit` loads one JSON blob holding every counter, prunes stale
timestamps, compares the global then the per-IP count with their limits
and, only when both checks pass, appends the current timestamp to both
lists and saves.  Timestamps are epoch seconds (`Int`); the module-level
read cache only short-circuits the S3 `get_object` and is not part of the
embedding (it never changes which data a sequential caller observes). -/

/-- Constructor arguments of `RateLimiter`. -/
structure RLConfig where
  global_limit : Nat
  ip_limit : Nat
  ip_whitelist : List String
deriving Repr, DecidableEq

/-- The stored blob `rate-limit/ratelimit.json`. -/
structure RateData where
  global_requests : List Int
  ip_requests : List (String × List Int)
deriving Repr, DecidableEq

/-- `RateLimiter._cleanup_old_requests`: drop global timestamps older than
one hour and per-IP timestamps older than one day; IPs left with no recent
timestamps are removed. -/
def cleanup_old_requests (data : RateData) (now : Int) : RateData :=
  let one_hour_ago := now - 3600
  let one_day_ago := now - 86400
  { global_requests := data.global_requests.filter (fun ts => one_hour_ago < ts)
    ip_requests :=
      (data.ip_requests.map
        (fun p => (p.fst, p.snd.filter (fun ts => one_day_ago < ts)))).filter
        (fun p => !p.snd.isEmpty) }

/-- `d[ip].append(ts)` preceded by `d[ip] = []` when the key is absent. -/
def appendIpRequest (d : List (String × List Int)) (ip : String) (ts : Int) :
    List (String × List Int) :=
  if (dictGet d ip).isSome then
    updateFirst (fun p => p.fst == ip) (fun p => (p.fst, p.snd ++ [ts])) d
  else
    d ++ [(ip, [ts])]

/-- Which limit a `count >= limit` comparison in `check_rate_limit`
concerns. -/
inductive LimitCheck where
  | globalLimit
  | ipLimit
deriving Repr, DecidableEq

/-- Everything one `check_rate_limit` call does: its return value
(`limited`), the store content after the call, whether a `put_object`
happened, and the limit comparisons performed in source order. -/
structure CheckOutcome where
  limited : Bool
  stored : RateData
  wrote : Bool
  checks : List LimitCheck
deriving Repr, DecidableEq

/-- `RateLimiter.check_rate_limit` over the stored blob, with `now` the
current epoch second. -/
def check_rate_limit (cfg : RLConfig) (ip_address : String) (now : Int)
    (stored : RateData) : CheckOutcome :=
  if cfg.ip_whitelist.contains ip_address then
    { limited := false, stored := stored, wrote := false, checks := [] }
  else
    let rate_data := cleanup_old_requests stored now
    let global_count := rate_data.global_requests.length
    if cfg.global_limit ≤ global_count then
      { limited := true, stored := stored, wrote := false
        checks := [.globalLimit] }
    else
      let ip_requests := (dictGet rate_data.ip_requests ip_address).getD []
      let ip_count := ip_requests.length
      if cfg.ip_limit ≤ ip_count then
        { limited := true, stored := stored, wrote := false
          checks := [.globalLimit, .ipLimit] }
      else
        let timestamp := now
        let data1 :=
          { rate_data with
            global_requests := rate_data.global_requests ++ [timestamp] }
        let data2 :=
          { data1 with
            ip_requests := appendIpRequest data1.ip_requests ip_address timestamp }
        { limited := false, stored := data2, wrote := true
          checks := [.globalLimit, .ipLimit] }

/-- Global request count the limiter would compare after pruning. -/
def globalCountAfterCleanup (stored : RateData) (now : Int) : Nat :=
  (cleanup_old_requests stored now).global_requests.length

/-- Per-IP request count the limiter would compare after pruning. -/
def ipCountAfterCleanup (stored : RateData) (now : Int) (ip_address : String) : Nat :=
  ((dictGet (cleanup_old_requests stored now).ip_requests ip_address).getD []).length

/-! ## Bounded context window (`models/context.py`) -/

/-- `WINDOW_SIZE` of `ContextManager`. -/
def WINDOW_SIZE : Nat := 3

/-- `ContextEntry` dataclass. -/
structure ContextEntry where
  iteration : Nat
  prompt : String
  image_key : String
  timestamp : String
deriving Repr, DecidableEq

/-- The pure window step of `ContextManager.add_entry`: append, then keep
only the trailing `WINDOW_SIZE` entries (`entries[-WINDOW_SIZE:]`). -/
def add_entry_window (entries : List ContextEntry) (entry : ContextEntry) :
    List ContextEntry :=
  let entries1 := entries ++ [entry]
  if WINDOW_SIZE < entries1.length then
    entries1.drop (entries1.length - WINDOW_SIZE)
  else entries1

/-- The reads and conditional-put outcome one `add_entry` attempt observes:
`read` is the parsed window (`none` on `NoSuchKey`; decode failures also
yield an empty list), `casOk` whether `_save_context_conditional`
succeeded. -/
structure CtxAttempt where
  read : Option (List ContextEntry)
  casOk : Bool
deriving Repr, DecidableEq

/-- Context-file writes: `condPut` is `_save_context_conditional`,
`forcePut` the unconditional `_save_context` fallback. -/
inductive CtxEvent where
  | condPut (window : List ContextEntry) (ok : Bool)
  | forcePut (window : List ContextEntry)
deriving Repr, DecidableEq

/-- `ContextManager.add_entry`: retry loop over the per-attempt oracle;
after the last failed conditional save, the entries computed in that
attempt are written unconditionally.  `add_entry` never raises, so only
the event trace is returned. -/
def add_entry (entry : ContextEntry) : List CtxAttempt → List CtxEvent
  | [] => []
  | e :: rest =>
    let entries := e.read.getD []
    let entries1 := add_entry_window entries entry
    if e.casOk then [.condPut entries1 true]
    else if rest.isEmpty then [.condPut entries1 false, .forcePut entries1]
    else .condPut entries1 false :: add_entry entry rest

/-- The stored window after a sequence of uncontended sequential
`add_entry` calls starting from no context file: each call reads the
window the previous call stored and its conditional save succeeds, so each
call stores `add_entry_window` of the previous window. -/
def run_context_appends (entries : List ContextEntry) : List ContextEntry :=
  entries.foldl add_entry_window []

/-! ## Fan-out executor (`jobs/executor.py`)

`_execute_model` marks the unit in progress, then calls
`self._execute_with_timeout(handler, model, prompt, params, timeout=120)`.
The embedding reproduces the Python call protocol for that call site: the
callee's parameter list is `(self, handler, model, prompt, params)`, so an
extra keyword argument raises `TypeError` before the handler runs.  The
job-manager callbacks and `image_storage.save_image` are external
collaborators recorded as events; the reference key `save_image` would
return is the `image_key` parameter. -/

/-- The standardized result shape a provider handler returns. -/
structure HandlerResult where
  status : String
  image : Option String
  error : Option String
deriving Repr, DecidableEq

/-- Python outcome of an expression: a value or a raised exception. -/
inductive PyOutcome (α : Type) where
  | ok (a : α)
  | raised (e : PyErr)
deriving Repr, DecidableEq

/-- Parameter names of `JobExecutor._execute_with_timeout` after `self`. -/
def execute_with_timeout_params : List String :=
  ["handler", "model", "prompt", "params"]

/-- Keyword arguments supplied at the call site inside
`JobExecutor._execute_model` beyond the positional ones. -/
def execute_model_call_kwargs : List String := ["timeout"]

/-- Body of `JobExecutor._execute_with_timeout`: it calls the handler
directly (no timeout enforcement). -/
def execute_with_timeout (handler : String → HandlerResult) (prompt : String) :
    HandlerResult :=
  handler prompt

/-- The call `self._execute_with_timeout(handler, model, prompt, params,
timeout=120)`: Python raises `TypeError` when a keyword argument does not
name a parameter of the callee; otherwise the body runs. -/
def call_execute_with_timeout (handler : String → HandlerResult) (prompt : String) :
    PyOutcome HandlerResult :=
  if execute_model_call_kwargs.all (fun k => execute_with_timeout_params.contains k) then
    .ok (execute_with_timeout handler prompt)
  else
    .raised (.typeError "_execute_with_timeout got an unexpected keyword argument timeout")

/-- Collaborator calls `_execute_model` performs, in order. -/
inductive ExecEvent where
  | markInProgress (model_name : String)
  | saveImage (model_name : String)
  | markComplete (model_name : String) (image_key : String)
  | markError (model_name : String) (error_msg : String)
deriving Repr, DecidableEq

/-- The per-unit result dict `_execute_model` returns. -/
structure ExecResult where
  status : String
  imageKey : Option String
  error : Option String
deriving Repr, DecidableEq

/-- `JobExecutor._execute_model` for one unit: the result dict it returns
and the collaborator calls it makes.  `image_key` is the reference key
`image_storage.save_image` would return on the success path. -/
def execute_model (handler : String → HandlerResult) (model_name prompt : String)
    (image_key : String) : ExecResult × List ExecEvent :=
  let ev0 : List ExecEvent := [.markInProgress model_name]
  match call_execute_with_timeout handler prompt with
  | .ok result =>
    if result.status == "success" then
      ({ status := "success", imageKey := some image_key, error := none },
        ev0 ++ [.saveImage model_name, .markComplete model_name image_key])
    else
      let error_msg := result.error.getD "Unknown error"
      ({ status := "error", imageKey := none, error := some error_msg },
        ev0 ++ [.markError model_name error_msg])
  | .raised e =>
    match e with
    | .typeError msg =>
      let error_msg := "Model execution failed: " ++ msg
      ({ status := "error", imageKey := none, error := some error_msg },
        ev0 ++ [.markError model_name error_msg])
    | .valueError msg =>
      let error_msg := "Model execution failed: " ++ msg
      ({ status := "error", imageKey := none, error := some error_msg },
        ev0 ++ [.markError model_name error_msg])
    | .keyError msg =>
      let error_msg := "Model execution failed: " ++ msg
      ({ status := "error", imageKey := none, error := some error_msg },
        ev0 ++ [.markError model_name error_msg])

/-! ## Provider adapter (`models/handlers.py`)

`handle_openai` wraps its whole body in `try/except`.  The first statement
is `model_id = model_config["id"]`, a `KeyError` when the key is absent;
both `except` blocks themselves evaluate `model_config['id']`, so that
`KeyError` re-raises out of the handler.  The OpenAI/network calls are an
oracle (`OpenAIBody`); `sanitize_error_message` (pure regex rewriting of
the message) is a function parameter, since no claim depends on its
output. -/

/-- Outcome of the external calls in `handle_openai`'s `try` body once
`model_id` is bound: a base64 image, a `requests.Timeout`, or any other
exception with its message. -/
inductive OpenAIBody where
  | returns (image_base64 : String)
  | raisesTimeout (msg : String)
  | raisesOther (msg : String)
deriving Repr, DecidableEq

/-- The response dict a provider handler returns. -/
structure ProviderResponse where
  status : String
  image : Option String
  error : Option String
  model : String
  provider : String
deriving Repr, DecidableEq

/-- `handle_openai` over a `model_config` association list. -/
def handle_openai (sanitize : String → String)
    (model_config : List (String × String)) (body : OpenAIBody) :
    PyOutcome ProviderResponse :=
  match dictGet model_config "id" with
  | none => .raised (.keyError "id")
  | some model_id =>
    match body with
    | .returns image_base64 =>
      .ok { status := "success", image := some image_base64, error := none
            model := model_id, provider := "openai" }
    | .raisesTimeout _ =>
      .ok { status := "error", image := none
            error := some "Image download timeout after 30 seconds"
            model := model_id, provider := "openai" }
    | .raisesOther msg =>
      .ok { status := "error", image := none
            error := some (sanitize msg)
            model := model_id, provider := "openai" }

/-! ## Scenario and witness instances -/

/-- The limiter configuration of the spec's end-to-end scenario: identity
limit 2, global limit far from reached, no whitelist. -/
def scenario_cfg : RLConfig :=
  { global_limit := 100, ip_limit := 2, ip_whitelist := [] }

/-- First of three sequential admission checks from the same identity. -/
def scenario_call_1 : CheckOutcome :=
  check_rate_limit scenario_cfg "9.9.9.9" 1000
    { global_requests := [], ip_requests := [] }

/-- Second sequential admission check, on the store the first call left. -/
def scenario_call_2 : CheckOutcome :=
  check_rate_limit scenario_cfg "9.9.9.9" 1000 scenario_call_1.stored

/-- Third sequential admission check, on the store the second call left. -/
def scenario_call_3 : CheckOutcome :=
  check_rate_limit scenario_cfg "9.9.9.9" 1000 scenario_call_2.stored

/-- A minimal stored session used by concrete witness runs: one enabled
model column and no iterations yet. -/
def witness_session_0 : Session :=
  { sessionId := "s", status := "pending", version := 1, prompt := "p"
    createdAt := "t", updatedAt := "t"
    models := [("flux",
      { enabled := true, status := "pending", iterationCount := 0, iterations := [] })] }

/-- The record `add_iteration` computes from `witness_session_0`: the new
iteration appended and the version bumped to 2. -/
def witness_session_1 : Session :=
  { sessionId := "s", status := "in_progress", version := 2, prompt := "p",
    createdAt := "t", updatedAt := "t2",
    models := [("flux",
      { enabled := true, status := "in_progress", iterationCount := 1,
        iterations := [{ index := 0,
                         status := "in_progress",
                         prompt := "p2",
                         startedAt := some "t2" }] })] }

/-- An attempt whose version check always fails: the concurrent writer has
already bumped the stored record to version 5. -/
def witness_conflict_env : AttemptEnv :=
  { read := some witness_session_0
    casRead := some { witness_session_0 with version := 5 } }

/-! ## Claims -/

/-- C1: for every session whose enabled units all carry a per-unit status
drawn from {pending, in_progress, completed, error}, the overall status
computed by `_compute_session_status` matches the spec's table exactly:
all units pending ⇒ pending; any unit in_progress ⇒ in_progress; all units
terminal with zero error ⇒ completed; all units terminal with zero
completed ⇒ failed; all units terminal with a mix of completed and
error ⇒ partial. -/
theorem compute_session_status_matches_table (session : Session)
    (hne : enabledStatuses session ≠ [])
    (hdom : ∀ x ∈ enabledStatuses session,
      x = "pending" ∨ x = "in_progress" ∨ x = "completed" ∨ x = "error") :
    ((∀ x ∈ enabledStatuses session, x = "pending") →
      compute_session_status session = "pending") ∧
    ((∃ x ∈ enabledStatuses session, x = "in_progress") →
      compute_session_status session = "in_progress") ∧
    ((∀ x ∈ enabledStatuses session, x = "completed" ∨ x = "error") →
      ("error" ∉ enabledStatuses session → compute_session_status session = "completed") ∧
      ("completed" ∉ enabledStatuses session → compute_session_status session = "failed") ∧
      ("completed" ∈ enabledStatuses session → "error" ∈ enabledStatuses session →
        compute_session_status session = "partial")) := by
  classical
  set em := (session.models.map Prod.snd).filter (fun m => m.enabled) with hem
  have hsts : enabledStatuses session = em.map (fun m => m.status) := rfl
  have hcomp : compute_session_status session =
      (if em.isEmpty then "failed"
       else if (enabledStatuses session).all (fun s => s == "pending") then "pending"
       else if (enabledStatuses session).any (fun s => s == "in_progress") then "in_progress"
       else if (enabledStatuses session).countP
           (fun s => s == "error" || s == "failed") == em.length then "failed"
       else if (enabledStatuses session).countP
           (fun s => s == "error" || s == "failed") > 0 then "partial"
       else "completed") := rfl
  have hεb : em.isEmpty = false := by
    rcases em with _ | ⟨a, l⟩
    · exact absurd hsts (by simpa using hne)
    · rfl
  have hlen : (enabledStatuses session).length = em.length := by
    rw [hsts, List.length_map]
  refine ⟨?_, ?_, ?_⟩
  · intro hall
    have hA : (enabledStatuses session).all (fun s => s == "pending") = true := by
      simp only [List.all_eq_true, beq_iff_eq]
      exact hall
    rw [hcomp, hεb, hA]
    rfl
  · rintro ⟨x, hx, hxip⟩
    have hA : (enabledStatuses session).all (fun s => s == "pending") = false := by
      apply Bool.eq_false_iff.mpr
      intro h
      have := (List.all_eq_true.mp h) x hx
      rw [hxip] at this
      simp at this
    have hB : (enabledStatuses session).any (fun s => s == "in_progress") = true := by
      refine List.any_eq_true.mpr ⟨x, hx, ?_⟩
      rw [hxip]
      decide
    rw [hcomp, hεb, hA, hB]
    rfl
  · intro hterm
    have hA : (enabledStatuses session).all (fun s => s == "pending") = false := by
      apply Bool.eq_false_iff.mpr
      intro h
      rcases List.exists_mem_of_ne_nil _ hne with ⟨x, hx⟩
      have hp := (List.all_eq_true.mp h) x hx
      rcases hterm x hx with h1 | h1 <;> rw [h1] at hp <;> simp at hp
    have hB : (enabledStatuses session).any (fun s => s == "in_progress") = false := by
      apply Bool.eq_false_iff.mpr
      intro h
      rcases List.any_eq_true.mp h with ⟨x, hx, hp⟩
      rcases hterm x hx with h1 | h1 <;> rw [h1] at hp <;> simp at hp
    have hlen0 : em.length ≠ 0 := by
      intro h0
      rcases List.exists_mem_of_ne_nil _ hne with ⟨x, hx⟩
      have := hlen
      rw [h0] at this
      exact absurd (List.eq_nil_of_length_eq_zero this ▸ hx) (List.not_mem_nil x)
    refine ⟨?_, ?_, ?_⟩
    · intro hnoerr
      have hc0 : (enabledStatuses session).countP
          (fun s => s == "error" || s == "failed") = 0 := by
        refine List.countP_eq_zero.mpr ?_
        intro x hx
        rcases hterm x hx with h1 | h1 <;> subst h1
        · simp
        · exact absurd hx hnoerr
      rw [hcomp, hεb, hA, hB, hc0]
      have : (0 == em.length) = false := by
        simpa using (Ne.symm hlen0)
      rw [this]
      rfl
    · intro hnocomp
      have hcl : (enabledStatuses session).countP
          (fun s => s == "error" || s == "failed") = em.length := by
        rw [← hlen]
        refine List.countP_eq_length.mpr ?_
        intro x hx
        rcases hterm x hx with h1 | h1
        · exact absurd (h1 ▸ hx) hnocomp
        · subst h1; rfl
      rw [hcomp, hεb, hA, hB, hcl]
      simp
    · intro hcin herin
      have hpos : 0 < (enabledStatuses session).countP
          (fun s => s == "error" || s == "failed") := by
        refine List.countP_pos_iff.mpr ⟨"error", herin, ?_⟩
        rfl
      have hlt : (enabledStatuses session).countP
          (fun s => s == "error" || s == "failed") ≠ em.length := by
        rw [← hlen]
        intro h
        have := (List.countP_eq_length.mp h) "completed" hcin
        simp at this
      rw [hcomp, hεb, hA, hB]
      have h1 : ((enabledStatuses session).countP
          (fun s => s == "error" || s == "failed") == em.length) = false := by
        simpa using hlt
      rw [h1]
      simp [hpos]

/-- C10: if a session has at least one enabled unit completed, and every
enabled unit is pending or completed, then `_compute_session_status`
returns completed even while some enabled units are still pending. -/
theorem compute_session_status_completed_despite_pending (session : Session)
    (hdom : ∀ x ∈ enabledStatuses session, x = "pending" ∨ x = "completed")
    (hc : "completed" ∈ enabledStatuses session) :
    compute_session_status session = "completed" := by
  classical
  set em := (session.models.map Prod.snd).filter (fun m => m.enabled) with hem
  have hsts : enabledStatuses session = em.map (fun m => m.status) := rfl
  have hcomp : compute_session_status session =
      (if em.isEmpty then "failed"
       else if (enabledStatuses session).all (fun s => s == "pending") then "pending"
       else if (enabledStatuses session).any (fun s => s == "in_progress") then "in_progress"
       else if (enabledStatuses session).countP
           (fun s => s == "error" || s == "failed") == em.length then "failed"
       else if (enabledStatuses session).countP
           (fun s => s == "error" || s == "failed") > 0 then "partial"
       else "completed") := rfl
  have hne : enabledStatuses session ≠ [] := by
    intro h
    rw [h] at hc
    exact List.not_mem_nil _ hc
  have hεb : em.isEmpty = false := by
    rcases em with _ | ⟨a, l⟩
    · exact absurd hsts (by simpa using hne)
    · rfl
  have hlen : (enabledStatuses session).length = em.length := by
    rw [hsts, List.length_map]
  have hA : (enabledStatuses session).all (fun s => s == "pending") = false := by
    apply Bool.eq_false_iff.mpr
    intro h
    have hp := (List.all_eq_true.mp h) "completed" hc
    simp at hp
  have hB : (enabledStatuses session).any (fun s => s == "in_progress") = false := by
    apply Bool.eq_false_iff.mpr
    intro h
    rcases List.any_eq_true.mp h with ⟨x, hx, hp⟩
    rcases hdom x hx with h1 | h1 <;> rw [h1] at hp <;> simp at hp
  have hc0 : (enabledStatuses session).countP
      (fun s => s == "error" || s == "failed") = 0 := by
    refine List.countP_eq_zero.mpr ?_
    intro x hx
    rcases hdom x hx with h1 | h1 <;> subst h1 <;> simp
  have hlen0 : em.length ≠ 0 := by
    intro h0
    rw [← hlen] at h0
    exact absurd (List.eq_nil_of_length_eq_zero h0 ▸ hc) (List.not_mem_nil _)
  rw [hcomp, hεb, hA, hB, hc0]
  have h1 : (0 == em.length) = false := by
    simpa using (Ne.symm hlen0)
  rw [h1]
  rfl

/-- Witness for C1 at a concrete session: one completed and one error
unit yield overall status partial. -/
theorem compute_session_status_matches_table_witness :
    compute_session_status
      { sessionId := "s", status := "in_progress", version := 1, prompt := "p"
        createdAt := "t", updatedAt := "t"
        models := [("flux",
            { enabled := true, status := "completed", iterationCount := 1, iterations := [] }),
          ("recraft",
            { enabled := true, status := "error", iterationCount := 1, iterations := [] })] }
      = "partial" := by
  have h := compute_session_status_matches_table
    { sessionId := "s", status := "in_progress", version := 1, prompt := "p"
      createdAt := "t", updatedAt := "t"
      models := [("flux",
          { enabled := true, status := "completed", iterationCount := 1, iterations := [] }),
        ("recraft",
          { enabled := true, status := "error", iterationCount := 1, iterations := [] })] }
    (by decide) (by decide)
  exact (h.2.2 (by decide)).2.2 (by decide) (by decide)

/-- Witness for C10 at a concrete session: one completed and one pending
unit yield overall status completed. -/
theorem compute_session_status_completed_despite_pending_witness :
    compute_session_status
      { sessionId := "s", status := "in_progress", version := 1, prompt := "p"
        createdAt := "t", updatedAt := "t"
        models := [("flux",
            { enabled := true, status := "completed", iterationCount := 1, iterations := [] }),
          ("recraft",
            { enabled := true, status := "pending", iterationCount := 0, iterations := [] })] }
      = "completed" :=
  compute_session_status_completed_despite_pending _ (by decide) (by decide)

/-- Keeping the trailing window of an already-windowed prefix loses nothing:
helper for the fold over `add_entry_window`. -/
theorem last_window_compose (xs ys : List ContextEntry) :
    (xs.drop (xs.length - WINDOW_SIZE) ++ ys).drop
      ((xs.drop (xs.length - WINDOW_SIZE) ++ ys).length - WINDOW_SIZE) =
    (xs ++ ys).drop ((xs ++ ys).length - WINDOW_SIZE) := by
  rw [List.drop_append_eq_append_drop, List.drop_append_eq_append_drop]
  rw [List.drop_drop]
  congr 1
  · congr 1
    simp only [List.length_append, List.length_drop, WINDOW_SIZE]
    omega
  · congr 1
    simp only [List.length_append, List.length_drop, WINDOW_SIZE]
    omega

/-- One `add_entry` window step keeps exactly the trailing `WINDOW_SIZE`
entries of the appended list. -/
theorem add_entry_window_eq_last (entries : List ContextEntry) (entry : ContextEntry) :
    add_entry_window entries entry =
      (entries ++ [entry]).drop ((entries ++ [entry]).length - WINDOW_SIZE) := by
  simp only [add_entry_window]
  split
  · rfl
  · rename_i h
    have h0 : (entries ++ [entry]).length - WINDOW_SIZE = 0 := by omega
    rw [h0, List.drop_zero]

/-- One `add_entry` window step never leaves more than `WINDOW_SIZE`
entries. -/
theorem add_entry_window_length_le (entries : List ContextEntry) (entry : ContextEntry) :
    (add_entry_window entries entry).length ≤ WINDOW_SIZE := by
  simp only [add_entry_window]
  split
  · rename_i h
    simp only [List.length_drop]
    omega
  · rename_i h
    omega

/-- Folding `add_entry_window` keeps exactly the trailing `WINDOW_SIZE`
elements of everything appended. -/
theorem foldl_add_entry_window (es : List ContextEntry) :
    ∀ acc : List ContextEntry, acc.length ≤ WINDOW_SIZE →
      es.foldl add_entry_window acc =
        (acc ++ es).drop ((acc ++ es).length - WINDOW_SIZE) := by
  induction es with
  | nil =>
    intro acc hacc
    simp only [List.foldl_nil, List.append_nil]
    have h0 : acc.length - WINDOW_SIZE = 0 := by omega
    rw [h0, List.drop_zero]
  | cons e es ih =>
    intro acc hacc
    have step : (e :: es).foldl add_entry_window acc =
        es.foldl add_entry_window (add_entry_window acc e) := rfl
    rw [step, ih _ (add_entry_window_length_le acc e)]
    rw [add_entry_window_eq_last]
    rw [last_window_compose (acc ++ [e]) es]
    congr 1 <;> simp

/-- C8: after any finite sequence of appends to one context log with window
capacity 3, the stored window has length at most 3 and holds exactly the 3
most recently appended entries (or all of them when fewer), in append
order, oldest evicted first; each uncontended sequential `add_entry` call
stores precisely `add_entry_window` of the previously stored window. -/
theorem context_window_invariant (entries : List ContextEntry) :
    (run_context_appends entries).length ≤ WINDOW_SIZE ∧
    run_context_appends entries = entries.drop (entries.length - WINDOW_SIZE) ∧
    (∀ (stored : List ContextEntry) (entry : ContextEntry) (rest : List CtxAttempt),
      add_entry entry ({ read := some stored, casOk := true } :: rest) =
        [.condPut (add_entry_window stored entry) true]) := by
  have hmain : run_context_appends entries =
      entries.drop (entries.length - WINDOW_SIZE) := by
    have h := foldl_add_entry_window entries [] (by simp [WINDOW_SIZE])
    simpa [run_context_appends] using h
  refine ⟨?_, hmain, ?_⟩
  · rw [hmain]
    simp only [List.length_drop]
    omega
  · intro stored entry rest
    rfl

/-- C5: with per-identity limit 2 and the global limit far from reached,
three sequential admission checks from one identity are allowed with
counts 1 and 2 and then rejected, and the rejected third call writes
nothing, leaving both counters unchanged. -/
theorem rate_limit_three_sequential_calls :
    scenario_call_1.limited = false ∧
    scenario_call_1.stored.global_requests.length = 1 ∧
    ((dictGet scenario_call_1.stored.ip_requests "9.9.9.9").getD []).length = 1 ∧
    scenario_call_2.limited = false ∧
    scenario_call_2.stored.global_requests.length = 2 ∧
    ((dictGet scenario_call_2.stored.ip_requests "9.9.9.9").getD []).length = 2 ∧
    scenario_call_3.limited = true ∧
    scenario_call_3.wrote = false ∧
    scenario_call_3.stored = scenario_call_2.stored := by
  decide

/-- C3 (amended): for every non-whitelisted caller the admission check
rejects exactly when the pruned per-identity counter or the pruned global
counter is at or above its limit, and a rejected call performs no write,
so a caller rejected for its per-identity quota never inflates the shared
global counter.  (The code compares the global counter first, not the
per-identity one first as claimed; see the counterexample.) -/
theorem check_rate_limit_reject_no_write (cfg : RLConfig) (ip_address : String)
    (now : Int) (stored : RateData)
    (hw : cfg.ip_whitelist.contains ip_address = false) :
    ((check_rate_limit cfg ip_address now stored).limited = true ↔
      cfg.global_limit ≤ globalCountAfterCleanup stored now ∨
      cfg.ip_limit ≤ ipCountAfterCleanup stored now ip_address) ∧
    ((check_rate_limit cfg ip_address now stored).limited = true →
      (check_rate_limit cfg ip_address now stored).stored = stored ∧
      (check_rate_limit cfg ip_address now stored).wrote = false) := by
  simp only [check_rate_limit, globalCountAfterCleanup, ipCountAfterCleanup, hw,
    Bool.false_eq_true, if_false]
  split_ifs with h1 h2
  · simp [h1]
  · simp [h1, h2]
  · simp [h1, h2]

/-- Counterexample to C3 as stated: a rejected non-whitelisted call whose
only performed limit comparison is the global one, so the per-identity
counter is not checked before the global counter. -/
theorem check_rate_limit_checks_global_before_ip :
    (check_rate_limit { global_limit := 0, ip_limit := 5, ip_whitelist := [] }
      "1.2.3.4" 0 { global_requests := [], ip_requests := [] }).limited = true ∧
    (check_rate_limit { global_limit := 0, ip_limit := 5, ip_whitelist := [] }
      "1.2.3.4" 0 { global_requests := [], ip_requests := [] }).checks
      = [.globalLimit] ∧
    LimitCheck.ipLimit ∉
      (check_rate_limit { global_limit := 0, ip_limit := 5, ip_whitelist := [] }
        "1.2.3.4" 0 { global_requests := [], ip_requests := [] }).checks := by
  decide

/-- Witness for C3 (amended) at a concrete store: an identity at its quota
is rejected and the stored data is untouched. -/
theorem check_rate_limit_reject_no_write_witness :
    (check_rate_limit { global_limit := 100, ip_limit := 2, ip_whitelist := [] }
      "9.9.9.9" 0
      { global_requests := [], ip_requests := [("9.9.9.9", [0, 0])] }).limited = true ∧
    (check_rate_limit { global_limit := 100, ip_limit := 2, ip_whitelist := [] }
      "9.9.9.9" 0
      { global_requests := [], ip_requests := [("9.9.9.9", [0, 0])] }).stored =
      { global_requests := [], ip_requests := [("9.9.9.9", [0, 0])] } := by
  have h := check_rate_limit_reject_no_write
    { global_limit := 100, ip_limit := 2, ip_whitelist := [] } "9.9.9.9" 0
    { global_requests := [], ip_requests := [("9.9.9.9", [0, 0])] } (by decide)
  have hl := h.1.mpr (Or.inr (by decide))
  exact ⟨hl, (h.2 hl).1⟩

/-- The record `add_iteration` computes carries the read version plus
one. -/
theorem add_iteration_compute_version (session : Session) (model prompt : String)
    (is_outpaint : Bool) (outpaint_preset : Option String) (now : String)
    (session2 : Session) (idx : Nat)
    (h : add_iteration_compute session model prompt is_outpaint outpaint_preset now
      = .ok (session2, idx)) :
    session2.version = session.version + 1 := by
  unfold add_iteration_compute at h
  split at h
  · exact absurd h (by simp)
  · split at h
    · exact absurd h (by simp)
    · split at h
      · exact absurd h (by simp)
      · simp only [Except.ok.injEq, Prod.mk.injEq] at h
        rw [← h.1]

/-- The record `complete_iteration` computes carries the read version plus
one. -/
theorem complete_iteration_compute_version (session : Session) (model : String)
    (index : Nat) (image_key : String) (duration : Option Rat) (now : String)
    (session2 : Session)
    (h : complete_iteration_compute session model index image_key duration now
      = .ok session2) :
    session2.version = session.version + 1 := by
  unfold complete_iteration_compute at h
  split at h
  · exact absurd h (by simp)
  · split at h
    · exact absurd h (by simp)
    · simp only [Except.ok.injEq] at h
      rw [← h]

/-- The record `fail_iteration` computes carries the read version plus
one. -/
theorem fail_iteration_compute_version (session : Session) (model : String)
    (index : Nat) (error_msg : String) (now : String) (session2 : Session)
    (h : fail_iteration_compute session model index error_msg now = .ok session2) :
    session2.version = session.version + 1 := by
  unfold fail_iteration_compute at h
  split at h
  · exact absurd h (by simp)
  · split at h
    · exact absurd h (by simp)
    · simp only [Except.ok.injEq] at h
      rw [← h]

/-- Every conditional write attempted by `add_iteration` carries a version
exactly one above the version it read. -/
theorem add_iteration_cas_increments (model prompt : String) (is_outpaint : Bool)
    (outpaint_preset : Option String) (now : String) :
    ∀ (env : List AttemptEnv) (rec : Session) (expected : Nat) (ok : Bool),
      StoreEvent.casAttempt rec expected ok ∈
        (add_iteration model prompt is_outpaint outpaint_preset now env).snd →
      rec.version = expected + 1 := by
  intro env
  induction env with
  | nil =>
    intro rec expected ok h
    simp [add_iteration] at h
  | cons e rest ih =>
    intro rec expected ok h
    cases hr : e.read with
    | none => simp [add_iteration, hr] at h
    | some session =>
      cases hc : add_iteration_compute session model prompt is_outpaint
          outpaint_preset now with
      | error err => simp [add_iteration, hr, hc] at h
      | ok val =>
        obtain ⟨session2, idx⟩ := val
        have hv := add_iteration_compute_version session model prompt is_outpaint
          outpaint_preset now session2 idx hc
        by_cases hs : save_status_with_version e.casRead session.version = true
        · simp [add_iteration, hr, hc, hs] at h
          obtain ⟨h1, h2, h3⟩ := h
          rw [h1, h2]
          exact hv
        · by_cases he : rest.isEmpty = true
          · simp [add_iteration, hr, hc, hs, he] at h
            obtain ⟨h1, h2, h3⟩ := h
            rw [h1, h2]
            exact hv
          · simp [add_iteration, hr, hc, hs, he] at h
            rcases h with ⟨h1, h2, h3⟩ | h
            · rw [h1, h2]
              exact hv
            · exact ih rec expected ok h

/-- Every conditional write attempted by `complete_iteration` carries a
version exactly one above the version it read. -/
theorem complete_iteration_cas_increments (model : String) (index : Nat)
    (image_key : String) (duration : Option Rat) (now : String) :
    ∀ (env : List AttemptEnv) (rec : Session) (expected : Nat) (ok : Bool),
      StoreEvent.casAttempt rec expected ok ∈
        (complete_iteration model index image_key duration now env).snd →
      rec.version = expected + 1 := by
  intro env
  induction env with
  | nil =>
    intro rec expected ok h
    simp [complete_iteration] at h
  | cons e rest ih =>
    intro rec expected ok h
    cases hr : e.read with
    | none => simp [complete_iteration, hr] at h
    | some session =>
      cases hc : complete_iteration_compute session model index image_key
          duration now with
      | error err => simp [complete_iteration, hr, hc] at h
      | ok session2 =>
        have hv := complete_iteration_compute_version session model index image_key
          duration now session2 hc
        by_cases hs : save_status_with_version e.casRead session.version = true
        · simp [complete_iteration, hr, hc, hs] at h
          obtain ⟨h1, h2, h3⟩ := h
          rw [h1, h2]
          exact hv
        · by_cases he : rest.isEmpty = true
          · simp [complete_iteration, hr, hc, hs, he] at h
            obtain ⟨h1, h2, h3⟩ := h
            rw [h1, h2]
            exact hv
          · simp [complete_iteration, hr, hc, hs, he] at h
            rcases h with ⟨h1, h2, h3⟩ | h
            · rw [h1, h2]
              exact hv
            · exact ih rec expected ok h

/-- Every conditional write attempted by `fail_iteration` carries a version
exactly one above the version it read. -/
theorem fail_iteration_cas_increments (model : String) (index : Nat)
    (error_msg : String) (now : String) :
    ∀ (env : List AttemptEnv) (rec : Session) (expected : Nat) (ok : Bool),
      StoreEvent.casAttempt rec expected ok ∈
        (fail_iteration model index error_msg now env).snd →
      rec.version = expected + 1 := by
  intro env
  induction env with
  | nil =>
    intro rec expected ok h
    simp [fail_iteration] at h
  | cons e rest ih =>
    intro rec expected ok h
    cases hr : e.read with
    | none => simp [fail_iteration, hr] at h
    | some session =>
      cases hc : fail_iteration_compute session model index error_msg now with
      | error err => simp [fail_iteration, hr, hc] at h
      | ok session2 =>
        have hv := fail_iteration_compute_version session model index error_msg
          now session2 hc
        by_cases hs : save_status_with_version e.casRead session.version = true
        · simp [fail_iteration, hr, hc, hs] at h
          obtain ⟨h1, h2, h3⟩ := h
          rw [h1, h2]
          exact hv
        · by_cases he : rest.isEmpty = true
          · simp [fail_iteration, hr, hc, hs, he] at h
            obtain ⟨h1, h2, h3⟩ := h
            rw [h1, h2]
            exact hv
          · simp [fail_iteration, hr, hc, hs, he] at h
            rcases h with ⟨h1, h2, h3⟩ | h
            · rw [h1, h2]
              exact hv
            · exact ih rec expected ok h

/-- C4: `create_session` stores version 1, every conditional write of
`add_iteration`, `complete_iteration` and `fail_iteration` stores a record
whose version is exactly one greater than the version the operation read,
and a conditional write only succeeds against a stored record holding
exactly the expected version — so successful writes step the stored
version from its read value v to v + 1, monotonically from 1. -/
theorem session_version_monotone :
    (∀ (session_id now prompt : String) (enabled_models : List String),
      (create_session session_id now prompt enabled_models).version = 1) ∧
    (∀ (model prompt : String) (is_outpaint : Bool) (outpaint_preset : Option String)
        (now : String) (env : List AttemptEnv) (rec : Session) (expected : Nat)
        (ok : Bool),
      StoreEvent.casAttempt rec expected ok ∈
        (add_iteration model prompt is_outpaint outpaint_preset now env).snd →
      rec.version = expected + 1) ∧
    (∀ (model : String) (index : Nat) (image_key : String) (duration : Option Rat)
        (now : String) (env : List AttemptEnv) (rec : Session) (expected : Nat)
        (ok : Bool),
      StoreEvent.casAttempt rec expected ok ∈
        (complete_iteration model index image_key duration now env).snd →
      rec.version = expected + 1) ∧
    (∀ (model : String) (index : Nat) (error_msg now : String)
        (env : List AttemptEnv) (rec : Session) (expected : Nat) (ok : Bool),
      StoreEvent.casAttempt rec expected ok ∈
        (fail_iteration model index error_msg now env).snd →
      rec.version = expected + 1) ∧
    (∀ (current : Session) (expected : Nat),
      save_status_with_version (some current) expected = true →
      current.version = expected) := by
  refine ⟨fun _ _ _ _ => rfl, ?_, ?_, ?_, ?_⟩
  · exact fun model prompt io op now => add_iteration_cas_increments model prompt io op now
  · exact fun model index key dur now =>
      complete_iteration_cas_increments model index key dur now
  · exact fun model index msg now => fail_iteration_cas_increments model index msg now
  · intro current expected h
    simpa [save_status_with_version] using h

/-- Witness for C4: a concrete successful CAS run whose written record has
version 2 after reading version 1. -/
theorem session_version_monotone_witness :
    StoreEvent.casAttempt witness_session_1 1 true ∈
      (add_iteration "flux" "p2" false none "t2"
        [{ read := some witness_session_0, casRead := some witness_session_0 }]).snd ∧
    witness_session_1.version = 2 := by
  have hmem : StoreEvent.casAttempt witness_session_1 1 true ∈
      (add_iteration "flux" "p2" false none "t2"
        [{ read := some witness_session_0, casRead := some witness_session_0 }]).snd := by
    have htr : (add_iteration "flux" "p2" false none "t2"
        [{ read := some witness_session_0, casRead := some witness_session_0 }]).snd =
        [StoreEvent.casAttempt witness_session_1 1 true] := by rfl
    rw [htr]
    exact List.mem_singleton.mpr rfl
  exact ⟨hmem, session_version_monotone.2.1 "flux" "p2" false none "t2"
    [{ read := some witness_session_0, casRead := some witness_session_0 }]
    witness_session_1 1 true hmem⟩

/-- C6: when all three conditional write attempts of a session mutation
(`add_iteration`, `complete_iteration`, `fail_iteration`) or of a
context-log append fail, the operation raises no conflict error: it
performs one final unconditional write of the record computed in the last
attempt and returns successfully. -/
theorem retry_exhaustion_forces_unconditional_write :
    (∀ (e1 e2 e3 : AttemptEnv) (model prompt : String) (is_outpaint : Bool)
        (outpaint_preset : Option String) (now : String)
        (s1 s2 s3 c1 c2 c3 : Session) (i1 i2 i3 : Nat),
      e1.read = some s1 → e2.read = some s2 → e3.read = some s3 →
      add_iteration_compute s1 model prompt is_outpaint outpaint_preset now
        = .ok (c1, i1) →
      add_iteration_compute s2 model prompt is_outpaint outpaint_preset now
        = .ok (c2, i2) →
      add_iteration_compute s3 model prompt is_outpaint outpaint_preset now
        = .ok (c3, i3) →
      save_status_with_version e1.casRead s1.version = false →
      save_status_with_version e2.casRead s2.version = false →
      save_status_with_version e3.casRead s3.version = false →
      add_iteration model prompt is_outpaint outpaint_preset now [e1, e2, e3] =
        (.ok i3,
          [.casAttempt c1 s1.version false, .casAttempt c2 s2.version false,
           .casAttempt c3 s3.version false, .forcePut c3])) ∧
    (∀ (e1 e2 e3 : AttemptEnv) (model : String) (index : Nat) (image_key : String)
        (duration : Option Rat) (now : String) (s1 s2 s3 c1 c2 c3 : Session),
      e1.read = some s1 → e2.read = some s2 → e3.read = some s3 →
      complete_iteration_compute s1 model index image_key duration now = .ok c1 →
      complete_iteration_compute s2 model index image_key duration now = .ok c2 →
      complete_iteration_compute s3 model index image_key duration now = .ok c3 →
      save_status_with_version e1.casRead s1.version = false →
      save_status_with_version e2.casRead s2.version = false →
      save_status_with_version e3.casRead s3.version = false →
      complete_iteration model index image_key duration now [e1, e2, e3] =
        (.ok (),
          [.casAttempt c1 s1.version false, .casAttempt c2 s2.version false,
           .casAttempt c3 s3.version false, .forcePut c3])) ∧
    (∀ (e1 e2 e3 : AttemptEnv) (model : String) (index : Nat) (error_msg now : String)
        (s1 s2 s3 c1 c2 c3 : Session),
      e1.read = some s1 → e2.read = some s2 → e3.read = some s3 →
      fail_iteration_compute s1 model index error_msg now = .ok c1 →
      fail_iteration_compute s2 model index error_msg now = .ok c2 →
      fail_iteration_compute s3 model index error_msg now = .ok c3 →
      save_status_with_version e1.casRead s1.version = false →
      save_status_with_version e2.casRead s2.version = false →
      save_status_with_version e3.casRead s3.version = false →
      fail_iteration model index error_msg now [e1, e2, e3] =
        (.ok (),
          [.casAttempt c1 s1.version false, .casAttempt c2 s2.version false,
           .casAttempt c3 s3.version false, .forcePut c3])) ∧
    (∀ (a1 a2 a3 : CtxAttempt) (entry : ContextEntry),
      a1.casOk = false → a2.casOk = false → a3.casOk = false →
      add_entry entry [a1, a2, a3] =
        [.condPut (add_entry_window (a1.read.getD []) entry) false,
         .condPut (add_entry_window (a2.read.getD []) entry) false,
         .condPut (add_entry_window (a3.read.getD []) entry) false,
         .forcePut (add_entry_window (a3.read.getD []) entry)]) := by
  refine ⟨?_, ?_, ?_, ?_⟩
  · intro e1 e2 e3 model prompt io op now s1 s2 s3 c1 c2 c3 i1 i2 i3
      h1 h2 h3 hc1 hc2 hc3 hs1 hs2 hs3
    simp [add_iteration, h1, h2, h3, hc1, hc2, hc3, hs1, hs2, hs3]
  · intro e1 e2 e3 model index key dur now s1 s2 s3 c1 c2 c3
      h1 h2 h3 hc1 hc2 hc3 hs1 hs2 hs3
    simp [complete_iteration, h1, h2, h3, hc1, hc2, hc3, hs1, hs2, hs3]
  · intro e1 e2 e3 model index msg now s1 s2 s3 c1 c2 c3
      h1 h2 h3 hc1 hc2 hc3 hs1 hs2 hs3
    simp [fail_iteration, h1, h2, h3, hc1, hc2, hc3, hs1, hs2, hs3]
  · intro a1 a2 a3 entry h1 h2 h3
    simp [add_entry, h1, h2, h3]

/-- Witness for C6: concrete runs of `add_iteration` and `add_entry` in
which all three conditional writes fail and one unconditional write of the
last computed record follows, returning successfully. -/
theorem retry_exhaustion_forces_unconditional_write_witness :
    add_iteration "flux" "p2" false none "t2"
      [witness_conflict_env, witness_conflict_env, witness_conflict_env] =
      (.ok 0,
        [.casAttempt witness_session_1 1 false, .casAttempt witness_session_1 1 false,
         .casAttempt witness_session_1 1 false, .forcePut witness_session_1]) ∧
    add_entry { iteration := 1, prompt := "p", image_key := "k", timestamp := "t" }
      [{ read := none, casOk := false }, { read := none, casOk := false },
       { read := none, casOk := false }] =
      [.condPut [{ iteration := 1, prompt := "p", image_key := "k", timestamp := "t" }] false,
       .condPut [{ iteration := 1, prompt := "p", image_key := "k", timestamp := "t" }] false,
       .condPut [{ iteration := 1, prompt := "p", image_key := "k", timestamp := "t" }] false,
       .forcePut [{ iteration := 1, prompt := "p", image_key := "k", timestamp := "t" }]] := by
  constructor
  · exact retry_exhaustion_forces_unconditional_write.1 witness_conflict_env
      witness_conflict_env witness_conflict_env "flux" "p2" false none "t2"
      witness_session_0 witness_session_0 witness_session_0
      witness_session_1 witness_session_1 witness_session_1 0 0 0
      rfl rfl rfl (by rfl) (by rfl) (by rfl) (by decide) (by decide) (by decide)
  · have h := retry_exhaustion_forces_unconditional_write.2.2.2
      { read := none, casOk := false } { read := none, casOk := false }
      { read := none, casOk := false }
      { iteration := 1, prompt := "p", image_key := "k", timestamp := "t" }
      rfl rfl rfl
    simpa [add_entry_window] using h

/-- C7: when the session record is absent, or the model key or iteration
index does not exist in the stored record, each update operation
(`add_iteration`, `complete_iteration`, `fail_iteration`) raises an error
and performs no store write, so an update path never creates a missing
record. -/
theorem update_path_never_creates_records :
    (∀ (e : AttemptEnv) (rest : List AttemptEnv) (model prompt : String)
        (is_outpaint : Bool) (outpaint_preset : Option String) (now : String),
      e.read = none →
      add_iteration model prompt is_outpaint outpaint_preset now (e :: rest) =
        (.error (.valueError "Session not found"), [])) ∧
    (∀ (e : AttemptEnv) (rest : List AttemptEnv) (model : String) (index : Nat)
        (image_key : String) (duration : Option Rat) (now : String),
      e.read = none →
      complete_iteration model index image_key duration now (e :: rest) =
        (.error (.valueError "Session not found"), [])) ∧
    (∀ (e : AttemptEnv) (rest : List AttemptEnv) (model : String) (index : Nat)
        (error_msg now : String),
      e.read = none →
      fail_iteration model index error_msg now (e :: rest) =
        (.error (.valueError "Session not found"), [])) ∧
    (∀ (e : AttemptEnv) (rest : List AttemptEnv) (s : Session) (model prompt : String)
        (is_outpaint : Bool) (outpaint_preset : Option String) (now : String),
      e.read = some s → dictGet s.models model = none →
      add_iteration model prompt is_outpaint outpaint_preset now (e :: rest) =
        (.error (.valueError ("Unknown model: " ++ model)), [])) ∧
    (∀ (e : AttemptEnv) (rest : List AttemptEnv) (s : Session) (model : String)
        (index : Nat) (image_key : String) (duration : Option Rat) (now : String),
      e.read = some s → dictGet s.models model = none →
      complete_iteration model index image_key duration now (e :: rest) =
        (.error (.keyError model), [])) ∧
    (∀ (e : AttemptEnv) (rest : List AttemptEnv) (s : Session) (model : String)
        (index : Nat) (error_msg now : String),
      e.read = some s → dictGet s.models model = none →
      fail_iteration model index error_msg now (e :: rest) =
        (.error (.keyError model), [])) ∧
    (∀ (e : AttemptEnv) (rest : List AttemptEnv) (s : Session) (md : ModelData)
        (model : String) (index : Nat) (image_key : String) (duration : Option Rat)
        (now : String),
      e.read = some s → dictGet s.models model = some md →
      md.iterations.find? (fun it => it.index == index) = none →
      complete_iteration model index image_key duration now (e :: rest) =
        (.error (.valueError ("Iteration not found for model " ++ model)), [])) ∧
    (∀ (e : AttemptEnv) (rest : List AttemptEnv) (s : Session) (md : ModelData)
        (model : String) (index : Nat) (error_msg now : String),
      e.read = some s → dictGet s.models model = some md →
      md.iterations.find? (fun it => it.index == index) = none →
      fail_iteration model index error_msg now (e :: rest) =
        (.error (.valueError ("Iteration not found for model " ++ model)), [])) := by
  refine ⟨?_, ?_, ?_, ?_, ?_, ?_, ?_, ?_⟩
  · intro e rest model prompt io op now hr
    simp [add_iteration, hr]
  · intro e rest model index key dur now hr
    simp [complete_iteration, hr]
  · intro e rest model index msg now hr
    simp [fail_iteration, hr]
  · intro e rest s model prompt io op now hr hm
    simp [add_iteration, add_iteration_compute, hr, hm]
  · intro e rest s model index key dur now hr hm
    simp [complete_iteration, complete_iteration_compute, hr, hm]
  · intro e rest s model index msg now hr hm
    simp [fail_iteration, fail_iteration_compute, hr, hm]
  · intro e rest s md model index key dur now hr hm hf
    simp [complete_iteration, complete_iteration_compute, hr, hm, hf]
  · intro e rest s md model index msg now hr hm hf
    simp [fail_iteration, fail_iteration_compute, hr, hm, hf]

/-- Witness for C7 at concrete inputs: absent session, unknown model key
and missing iteration index each raise with an empty write trace. -/
theorem update_path_never_creates_records_witness :
    add_iteration "flux" "p" false none "t" [{ read := none, casRead := none }] =
      (.error (.valueError "Session not found"), []) ∧
    complete_iteration "nova" 0 "k" none "t"
      [{ read := some witness_session_0, casRead := some witness_session_0 }] =
      (.error (.keyError "nova"), []) ∧
    complete_iteration "flux" 9 "k" none "t"
      [{ read := some witness_session_0, casRead := some witness_session_0 }] =
      (.error (.valueError ("Iteration not found for model " ++ "flux")), []) := by
  refine ⟨?_, ?_, ?_⟩
  · exact update_path_never_creates_records.1 { read := none, casRead := none } []
      "flux" "p" false none "t" rfl
  · exact update_path_never_creates_records.2.2.2.2.1
      { read := some witness_session_0, casRead := some witness_session_0 } []
      witness_session_0 "nova" 0 "k" none "t" rfl (by decide)
  · exact update_path_never_creates_records.2.2.2.2.2.2.1
      { read := some witness_session_0, casRead := some witness_session_0 } []
      witness_session_0
      { enabled := true, status := "pending", iterationCount := 0, iterations := [] }
      "flux" 9 "k" none "t" rfl (by decide) (by decide)

/-- Whatever the handler would return, `_execute_model` records the unit as
an error: the call to `_execute_with_timeout` passes a `timeout` keyword
argument its signature does not accept, so `TypeError` is raised before
the handler runs and the `except Exception` path marks the unit failed. -/
theorem execute_model_marks_error_regardless_of_handler
    (handler : String → HandlerResult) (model_name prompt image_key : String) :
    (execute_model handler model_name prompt image_key).fst.status = "error" ∧
    (execute_model handler model_name prompt image_key).snd =
      [.markInProgress model_name,
       .markError model_name
         "Model execution failed: _execute_with_timeout got an unexpected keyword argument timeout"] := by
  exact ⟨rfl, rfl⟩

/-- C2 (failing run): even with a handler that returns a success result,
`_execute_model` reports status error and never calls the artifact store
or `markUnitComplete` — the success path of the executor is unreachable
because of the extra `timeout` keyword argument. -/
theorem execute_model_success_handler_still_errors :
    (execute_model
      (fun _ => { status := "success", image := some "img", error := none })
      "flux" "a cat" "sessions/s/images/flux-0.png").fst.status = "error" ∧
    (ExecEvent.markComplete "flux" "sessions/s/images/flux-0.png") ∉
      (execute_model
        (fun _ => { status := "success", image := some "img", error := none })
        "flux" "a cat" "sessions/s/images/flux-0.png").snd ∧
    (ExecEvent.saveImage "flux") ∉
      (execute_model
        (fun _ => { status := "success", image := some "img", error := none })
        "flux" "a cat" "sessions/s/images/flux-0.png").snd := by
  refine ⟨rfl, ?_, ?_⟩ <;> decide

/-- C9 (amended): for every `model_config` that contains the key `id`,
every prompt and every outcome of the external calls, `handle_openai`
never raises: it returns a standard-shape dict whose status is success or
error. -/
theorem handle_openai_with_id_never_raises (sanitize : String → String)
    (model_config : List (String × String)) (body : OpenAIBody)
    (h : (dictGet model_config "id").isSome = true) :
    ∃ r, handle_openai sanitize model_config body = .ok r ∧
      (r.status = "success" ∨ r.status = "error") ∧ r.provider = "openai" := by
  cases hm : dictGet model_config "id" with
  | none => rw [hm] at h; simp at h
  | some model_id =>
    cases body with
    | returns img =>
      refine ⟨{ status := "success", image := some img, error := none,
                model := model_id, provider := "openai" }, ?_, Or.inl rfl, rfl⟩
      simp [handle_openai, hm]
    | raisesTimeout m =>
      refine ⟨{ status := "error", image := none,
                error := some "Image download timeout after 30 seconds",
                model := model_id, provider := "openai" }, ?_, Or.inr rfl, rfl⟩
      simp [handle_openai, hm]
    | raisesOther m =>
      refine ⟨{ status := "error", image := none, error := some (sanitize m),
                model := model_id, provider := "openai" }, ?_, Or.inr rfl, rfl⟩
      simp [handle_openai, hm]

/-- Counterexample to C9 as stated: with a `model_config` lacking the `id`
key, `handle_openai` raises `KeyError` (the `except` blocks themselves
evaluate `model_config['id']`), instead of returning the error shape. -/
theorem handle_openai_raises_keyerror_without_id :
    handle_openai (fun s => s) [] (.returns "img") = .raised (.keyError "id") := rfl

/-- Witness for C9 (amended) at a concrete config and outcome. -/
theorem handle_openai_with_id_never_raises_witness :
    ∃ r, handle_openai (fun s => s) [("id", "dall-e-3")] (.returns "img") = .ok r ∧
      (r.status = "success" ∨ r.status = "error") ∧ r.provider = "openai" :=
  handle_openai_with_id_never_raises (fun s => s) [("id", "dall-e-3")]
    (.returns "img") (by decide)

end PixelPrompt
